import Mathlib

/-!
# Verification of the chat-broker server (Sharef214/chat-project)

Shallow embedding of the session-broker core: the Mongoose models and
helper functions of `models.js` and the Express/socket.io handlers of
`server.js`.  Durable collections (workers, chat rooms, messages,
customer sessions) are modelled as lists of records in insertion order
(MongoDB natural order); the in-memory `Map`s (`workerSockets`,
`activeCustomers`) as association lists with unique keys.  Timestamps
(`Date.now()`, `new Date()`) are passed in explicitly as `Nat`
parameters.  Each socket/HTTP handler becomes a function from the
server state (plus the event payload) to the new state together with
the list of emitted socket events.
-/

/-- Worker availability, `workerSchema.status` enum
`['offline', 'available', 'busy']`. -/
inductive WStatus
  | offline
  | available
  | busy
deriving DecidableEq, Repr

/-- Chat-room status, `chatRoomSchema.status` enum
`['active', 'ended', 'abandoned']`. -/
inductive RoomStatus
  | active
  | ended
  | abandoned
deriving DecidableEq, Repr

/-- Message delivery status, `messageSchema.status` enum
`['sent', 'delivered', 'read']`. -/
inductive MsgStatus
  | sent
  | delivered
  | read
deriving DecidableEq, Repr

/-- Sender role, `messageSchema.sender` enum
`['customer', 'worker', 'system']`. -/
inductive Sender
  | customer
  | worker
  | system
deriving DecidableEq, Repr

/-- A `Worker` document (`workerSchema`); the credential fields are
irrelevant to the broker core and omitted. -/
structure Worker where
  wid : Nat
  username : String
  status : WStatus
  currentCustomer : Option String
  lastActive : Nat
deriving DecidableEq, Repr

/-- A `ChatRoom` document (`chatRoomSchema`). -/
structure ChatRoom where
  roomId : String
  customerId : String
  workerId : Nat
  workerName : String
  status : RoomStatus
  endedAt : Option Nat
deriving DecidableEq, Repr

/-- A `Message` document (`messageSchema`); text content only (the
attachment descriptor does not affect any property proved here). -/
structure MessageRec where
  messageId : Nat
  roomId : String
  message : String
  sender : Sender
  senderId : String
  status : MsgStatus
  timestamp : Nat
deriving DecidableEq, Repr

/-- A `CustomerSession` document (`customerSessionSchema`). -/
structure CustomerSession where
  customerId : String
  roomId : String
  workerId : Nat
  workerName : String
deriving DecidableEq, Repr

/-- Value stored in the in-memory `activeCustomers` map
(`activeCustomers.set(customerId, {...})` in the join route). -/
structure CustomerData where
  id : String
  roomId : String
  workerId : Nat
  workerName : String
  joinedAt : Nat
deriving DecidableEq, Repr

/-- Update the first element satisfying `p` (the semantics of Mongoose
`findOneAndUpdate` on a filtered collection). -/
def updateFirst (p : α → Bool) (f : α → α) : List α → List α
  | [] => []
  | x :: xs => if p x then f x :: xs else x :: updateFirst p f xs

/-- `Map.get` on an association list. -/
def mapGet [DecidableEq κ] (m : List (κ × α)) (k : κ) : Option α :=
  (m.find? (fun e => decide (e.1 = k))).map (fun e => e.2)

/-- `Map.set` on an association list: replace the existing binding or
append a new one. -/
def mapSet [DecidableEq κ] (m : List (κ × α)) (k : κ) (v : α) : List (κ × α) :=
  if m.any (fun e => decide (e.1 = k)) then
    updateFirst (fun e => decide (e.1 = k)) (fun e => (e.1, v)) m
  else
    m ++ [(k, v)]

/-- `Map.delete` on an association list (keys are unique, so removing
every binding of the key models deleting the entry). -/
def mapDelete [DecidableEq κ] (m : List (κ × α)) (k : κ) : List (κ × α) :=
  m.filter (fun e => decide (e.1 ≠ k))

/-- `WorkerHelpers.findAvailable`:
`Worker.find({ status: 'available' }).limit(10)` — the available
workers in natural (list) order, first ten; there is no sort. -/
def WorkerHelpers.findAvailable (db : List Worker) : List Worker :=
  (db.filter (fun w => decide (w.status = WStatus.available))).take 10

/-- `WorkerHelpers.updateStatus(workerId, status, currentCustomer = null)`:
`findByIdAndUpdate` setting `status`, `lastActive: new Date()` and
`currentCustomer`.  Because the JS parameter defaults to `null` (not
`undefined`), the guard `currentCustomer !== undefined` always holds,
so `currentCustomer` is written on every call — `none` when the caller
passes two arguments. -/
def WorkerHelpers.updateStatus (db : List Worker) (wid : Nat) (st : WStatus)
    (cc : Option String) (now : Nat) : List Worker :=
  updateFirst (fun w => decide (w.wid = wid))
    (fun w => { w with status := st, currentCustomer := cc, lastActive := now }) db

/-- `MessageHelpers.saveMessage`: `new Message(...).save()`.  The
schema declares a unique index on `messageId`, so saving a duplicate
id fails with a duplicate-key error. -/
def MessageHelpers.saveMessage (db : List MessageRec) (m : MessageRec) :
    Except Unit (List MessageRec) :=
  if db.any (fun x => decide (x.messageId = m.messageId)) then
    Except.error ()
  else
    Except.ok (db ++ [m])

/-- `MessageHelpers.updateStatus(messageId, status)`:
`Message.findOneAndUpdate({ messageId }, { status })` — sets the
status unconditionally, with no monotonicity check. -/
def MessageHelpers.updateStatus (db : List MessageRec) (mid : Nat)
    (st : MsgStatus) : List MessageRec :=
  updateFirst (fun m => decide (m.messageId = mid))
    (fun m => { m with status := st }) db

/-- `Message.updateMany({ messageId: { $in: messageIds } }, { status: 'read' })`
from the `messages-read` handler. -/
def MessageRec.updateManyRead (db : List MessageRec) (ids : List Nat) :
    List MessageRec :=
  db.map (fun m => if ids.contains m.messageId then { m with status := MsgStatus.read } else m)

/-- `ChatRoomHelpers.create(roomId, customerId, worker)`: inserts a new
room with default status `'active'` (`roomId` is freshly derived from a
fresh customer id, so the unique index on `roomId` is not hit). -/
def ChatRoomHelpers.create (db : List ChatRoom) (roomId customerId : String)
    (w : Worker) : List ChatRoom :=
  db ++ [{ roomId := roomId, customerId := customerId, workerId := w.wid,
           workerName := w.username, status := RoomStatus.active, endedAt := none }]

/-- `ChatRoomHelpers.end(roomId)` (`end` is a Lean keyword, hence
`endRoom`): `ChatRoom.findOneAndUpdate({ roomId }, { status: 'ended',
endedAt: new Date() })` — unconditional, from any prior status. -/
def ChatRoomHelpers.endRoom (db : List ChatRoom) (roomId : String)
    (now : Nat) : List ChatRoom :=
  updateFirst (fun r => decide (r.roomId = roomId))
    (fun r => { r with status := RoomStatus.ended, endedAt := some now }) db

/-- `findAvailableWorker()` in `server.js`:
`availableWorkers.length > 0 ? availableWorkers[0] : null`. -/
def findAvailableWorker (db : List Worker) : Option Worker :=
  (WorkerHelpers.findAvailable db).head?

/-- The whole mutable server state: the four durable collections plus
the two in-memory maps (`workerSockets : workerId -> socketId`,
`activeCustomers : customerId -> customerData`). -/
structure ServerState where
  workers : List Worker
  rooms : List ChatRoom
  messages : List MessageRec
  customerSessions : List CustomerSession
  workerSockets : List (Nat × Nat)
  activeCustomers : List (String × CustomerData)
deriving DecidableEq, Repr

/-- Payloads of the socket events the modelled handlers emit. -/
inductive EventPayload
  | newMessage (m : MessageRec)
  | messageStatusUpdate (messageId : Nat) (status : MsgStatus)
  | customerDisconnected (customerId : String)
  | customerConnected (customerId roomId : String)
  | chatEnded
  | messageError
  | workerStatus (status : WStatus) (currentCustomer : Option String) (queueLength : Nat)
  | userTyping (sender : String) (typing : Bool)
deriving DecidableEq, Repr

/-- An emission: `io.to(roomId)`, `io.to('worker_' + workerId)` or
`socket.emit` (to one socket id). -/
inductive Emit
  | toRoom (roomId : String) (p : EventPayload)
  | toWorkerRoom (workerId : Nat) (p : EventPayload)
  | toSocket (socketId : Nat) (p : EventPayload)
deriving DecidableEq, Repr

/-- Result of the `assignCustomerToWorker` helper. -/
structure AssignmentResult where
  roomId : String
  workerId : Nat
  workerName : String
deriving DecidableEq, Repr

/-- `assignCustomerToWorker(customerId, worker)`: marks the worker
busy with this customer, creates the chat room, stores the
`CustomerSession` document. -/
def assignCustomerToWorker (st : ServerState) (customerId : String)
    (w : Worker) (now : Nat) : ServerState × AssignmentResult :=
  let roomId := "room_" ++ customerId ++ "_" ++ toString w.wid
  let workers := WorkerHelpers.updateStatus st.workers w.wid WStatus.busy
    (some customerId) now
  let rooms := ChatRoomHelpers.create st.rooms roomId customerId w
  let sessions := st.customerSessions ++
    [{ customerId := customerId, roomId := roomId, workerId := w.wid,
       workerName := w.username }]
  ({ st with workers := workers, rooms := rooms, customerSessions := sessions },
   { roomId := roomId, workerId := w.wid, workerName := w.username })

/-- Response of `POST /api/customer/join`. -/
inductive JoinResult
  | connected (customerId roomId : String) (workerId : Nat) (workerName : String)
  | busy (customerId : String)
deriving DecidableEq, Repr

/-- Continuation of the join route after the `findAvailableWorker`
read has resolved (the code between the first and the second `await`
is the suspension point at which concurrent requests interleave). -/
def admitAfterFind (st : ServerState) (customerId : String)
    (found : Option Worker) (now : Nat) : ServerState × JoinResult :=
  match found with
  | some w =>
    let (st1, a) := assignCustomerToWorker st customerId w now
    let cdata : CustomerData :=
      { id := customerId, roomId := a.roomId, workerId := a.workerId,
        workerName := a.workerName, joinedAt := now }
    let st2 := { st1 with
      activeCustomers := mapSet st1.activeCustomers customerId cdata }
    (st2, JoinResult.connected customerId a.roomId a.workerId a.workerName)
  | none => (st, JoinResult.busy customerId)

/-- `POST /api/customer/join`, run without interleaving: find an
available worker; if one exists assign it, record the active customer
and answer `connected`, otherwise answer `busy` and touch nothing.
The fresh `customerId` (`'customer_' + Date.now() + random`) is passed
in as a parameter. -/
def admitCustomer (st : ServerState) (customerId : String) (now : Nat) :
    ServerState × JoinResult :=
  admitAfterFind st customerId (findAvailableWorker st.workers) now

/-- Two concurrent join requests interleaved at the await of
`findAvailableWorker`: both reads resolve against the same state
before either request runs `assignCustomerToWorker`.  This is the
schedule the event loop produces when the two HTTP requests arrive
together, since every `await` is a suspension point. -/
def admitRace (st : ServerState) (c1 c2 : String) (now1 now2 : Nat) :
    ServerState × JoinResult × JoinResult :=
  let f1 := findAvailableWorker st.workers
  let f2 := findAvailableWorker st.workers
  let (st1, r1) := admitAfterFind st c1 f1 now1
  let (st2, r2) := admitAfterFind st1 c2 f2 now2
  (st2, r1, r2)

/-- The socket's own fields read by the `disconnect` handler
(`socket.workerId`, `socket.customerId`, `socket.roomId`). -/
structure SockCtx where
  sid : Nat
  workerId : Option Nat
  customerId : Option String
  roomId : Option String
deriving DecidableEq, Repr

/-- `socket.on('worker-join')`: store the socket, set the worker
`'available'` (the two-argument `updateStatus` call also writes
`currentCustomer = null`), then emit the worker's current status. -/
def handleWorkerJoin (st : ServerState) (workerId socketId now : Nat) :
    ServerState × List Emit :=
  let sockets := mapSet st.workerSockets workerId socketId
  let workers := WorkerHelpers.updateStatus st.workers workerId
    WStatus.available none now
  let st1 := { st with workerSockets := sockets, workers := workers }
  let ev := match st1.workers.find? (fun w => decide (w.wid = workerId)) with
    | some w => EventPayload.workerStatus w.status w.currentCustomer
        st1.activeCustomers.length
    | none => EventPayload.workerStatus WStatus.offline none
        st1.activeCustomers.length
  (st1, [Emit.toWorkerRoom workerId ev])

/-- `socket.on('customer-join')`: no broker state changes (room joins
are transport-level); notifies the worker when the customer is known. -/
def handleCustomerJoin (st : ServerState) (customerId roomId : String) :
    ServerState × List Emit :=
  match mapGet st.activeCustomers customerId with
  | some c => (st, [Emit.toWorkerRoom c.workerId
      (EventPayload.customerConnected customerId roomId)])
  | none => (st, [])

/-- `socket.on('send-message')`: build `messageData` with
`id: Date.now()` and `status: 'sent'`, save it, and on success
broadcast `new-message` to the room; the `setTimeout` then broadcasts
a `'delivered'` status update (returned as the delayed third
component; it never writes the database).  On a save failure only
`message-error` goes back to the sender. -/
def handleSendMessage (st : ServerState) (socketId : Nat)
    (roomId message : String) (sender : Sender) (senderId : String)
    (now : Nat) : ServerState × List Emit × List Emit :=
  let messageData : MessageRec :=
    { messageId := now, roomId := roomId, message := message, sender := sender,
      senderId := senderId, status := MsgStatus.sent, timestamp := now }
  match MessageHelpers.saveMessage st.messages messageData with
  | Except.ok msgs =>
    ({ st with messages := msgs },
     [Emit.toRoom roomId (EventPayload.newMessage messageData)],
     [Emit.toRoom roomId (EventPayload.messageStatusUpdate messageData.messageId
        MsgStatus.delivered)])
  | Except.error _ =>
    (st, [Emit.toSocket socketId EventPayload.messageError], [])

/-- `socket.on('message-read')`: after the falsiness guard on
`roomId`/`messageId`, set the message status to `'read'` in the
database and broadcast the status update. -/
def handleMessageRead (st : ServerState) (roomId : String) (messageId : Nat) :
    ServerState × List Emit :=
  if roomId = "" ∨ messageId = 0 then
    (st, [])
  else
    ({ st with
        messages := MessageHelpers.updateStatus st.messages messageId MsgStatus.read },
     [Emit.toRoom roomId (EventPayload.messageStatusUpdate messageId
        MsgStatus.read)])

/-- `socket.on('messages-read')`: bulk `updateMany` to `'read'`, then
one status-update broadcast per id. -/
def handleMessagesRead (st : ServerState) (roomId : String) (ids : List Nat) :
    ServerState × List Emit :=
  ({ st with messages := MessageRec.updateManyRead st.messages ids },
   ids.map (fun mid => Emit.toRoom roomId
     (EventPayload.messageStatusUpdate mid MsgStatus.read)))

/-- `socket.on('end-chat')`: set the worker `'available'` (clearing
`currentCustomer`), end the room, delete the active customer whose
`roomId` matches, and notify the room. -/
def handleEndChat (st : ServerState) (roomId : String) (workerId now : Nat) :
    ServerState × List Emit :=
  let workers := WorkerHelpers.updateStatus st.workers workerId
    WStatus.available none now
  let rooms := ChatRoomHelpers.endRoom st.rooms roomId now
  let ac := match st.activeCustomers.find? (fun e => decide (e.2.roomId = roomId)) with
    | some c => mapDelete st.activeCustomers c.2.id
    | none => st.activeCustomers
  ({ st with workers := workers, rooms := rooms, activeCustomers := ac },
   [Emit.toRoom roomId EventPayload.chatEnded])

/-- `socket.on('disconnect')`: a worker socket is set `'offline'` and
unmapped (its room, if any, is left untouched); a customer socket with
a known active customer notifies the worker, frees it, ends the room
and drops the presence record. -/
def handleDisconnect (st : ServerState) (sock : SockCtx) (now : Nat) :
    ServerState × List Emit :=
  let (stW, emsW) :=
    match sock.workerId with
    | some wid =>
      ({ st with
          workers := WorkerHelpers.updateStatus st.workers wid WStatus.offline none now,
          workerSockets := mapDelete st.workerSockets wid },
       ([] : List Emit))
    | none => (st, [])
  match sock.customerId, sock.roomId with
  | some cid, some rid =>
    match mapGet stW.activeCustomers cid with
    | some customer =>
      ({ stW with
          workers := WorkerHelpers.updateStatus stW.workers customer.workerId
            WStatus.available none now,
          rooms := ChatRoomHelpers.endRoom stW.rooms rid now,
          activeCustomers := mapDelete stW.activeCustomers cid },
       emsW ++ [Emit.toWorkerRoom customer.workerId
         (EventPayload.customerDisconnected cid)])
    | none => (stW, emsW)
  | _, _ => (stW, emsW)

/-- Typing relay: broadcast only, no state. -/
def handleTyping (st : ServerState) (roomId sender : String) (typing : Bool) :
    ServerState × List Emit :=
  if roomId = "" ∨ sender = "" then
    (st, [])
  else
    (st, [Emit.toRoom roomId (EventPayload.userTyping sender typing)])

/-- One broker operation (HTTP admission or socket event). -/
inductive Event
  | admitReq (customerId : String) (now : Nat)
  | workerJoin (workerId socketId now : Nat)
  | customerJoin (customerId roomId : String)
  | sendMessage (socketId : Nat) (roomId message : String) (sender : Sender)
      (senderId : String) (now : Nat)
  | messageRead (roomId : String) (messageId : Nat)
  | messagesRead (roomId : String) (ids : List Nat)
  | endChat (roomId : String) (workerId now : Nat)
  | typing (roomId sender : String) (flag : Bool)
  | disconnect (sock : SockCtx) (now : Nat)
deriving Repr

/-- Dispatch: run one operation to completion (the event loop runs
each handler body atomically up to its awaits; `step` is the
no-interleaving execution of a whole handler). -/
def step (st : ServerState) (e : Event) : ServerState × List Emit :=
  match e with
  | Event.admitReq cid now => ((admitCustomer st cid now).1, [])
  | Event.workerJoin wid sid now => handleWorkerJoin st wid sid now
  | Event.customerJoin cid rid => handleCustomerJoin st cid rid
  | Event.sendMessage sid rid msg sender senderId now =>
    let r := handleSendMessage st sid rid msg sender senderId now
    (r.1, r.2.1 ++ r.2.2)
  | Event.messageRead rid mid => handleMessageRead st rid mid
  | Event.messagesRead rid ids => handleMessagesRead st rid ids
  | Event.endChat rid wid now => handleEndChat st rid wid now
  | Event.typing rid s f => handleTyping st rid s f
  | Event.disconnect sock now => handleDisconnect st sock now

/-- Status of the room with a given id (`findOne` semantics: first
match). -/
def roomStatusOf (rooms : List ChatRoom) (roomId : String) : Option RoomStatus :=
  (rooms.find? (fun r => decide (r.roomId = roomId))).map (fun r => r.status)

/-- The worker document with a given id. -/
def workerFind (db : List Worker) (wid : Nat) : Option Worker :=
  db.find? (fun w => decide (w.wid = wid))

/-- Status of the message with a given id (`findOne` semantics). -/
def statusOf (db : List MessageRec) (mid : Nat) : Option MsgStatus :=
  (db.find? (fun m => decide (m.messageId = mid))).map (fun m => m.status)

/-- Rank of a delivery status along sent → delivered → read. -/
def statusRank : MsgStatus → Nat
  | MsgStatus.sent => 0
  | MsgStatus.delivered => 1
  | MsgStatus.read => 2

/-- Number of active chat rooms referencing a worker. -/
def activeRoomsFor (rooms : List ChatRoom) (wid : Nat) : Nat :=
  (rooms.filter (fun r => decide (r.workerId = wid ∧ r.status = RoomStatus.active))).length

/-- Invariant (a) of the spec: a worker is `busy` iff exactly one
active session references it. -/
def busyIffOneActive (st : ServerState) : Prop :=
  ∀ w ∈ st.workers, (w.status = WStatus.busy ↔ activeRoomsFor st.rooms w.wid = 1)

instance (st : ServerState) : Decidable (busyIffOneActive st) :=
  show Decidable (∀ w ∈ st.workers,
      (w.status = WStatus.busy ↔ activeRoomsFor st.rooms w.wid = 1)) from
    inferInstance

/-! ## Concrete states used as counterexamples and witnesses -/

/-- A pool with exactly one available worker and nothing else. -/
def onePool : ServerState :=
  { workers := [{ wid := 1, username := "alice", status := WStatus.available,
                  currentCustomer := none, lastActive := 10 }],
    rooms := [], messages := [], customerSessions := [],
    workerSockets := [], activeCustomers := [] }

/-- A pool where worker 1 is busy with customer `c1` in the active
room `room_c1_1`, and the customer presence record is held. -/
def busyPool : ServerState :=
  { workers := [{ wid := 1, username := "alice", status := WStatus.busy,
                  currentCustomer := some "c1", lastActive := 10 }],
    rooms := [{ roomId := "room_c1_1", customerId := "c1", workerId := 1,
                workerName := "alice", status := RoomStatus.active,
                endedAt := none }],
    messages := [],
    customerSessions := [{ customerId := "c1", roomId := "room_c1_1",
                           workerId := 1, workerName := "alice" }],
    workerSockets := [(1, 7)],
    activeCustomers := [("c1", { id := "c1", roomId := "room_c1_1",
                                 workerId := 1, workerName := "alice",
                                 joinedAt := 5 })] }

/-- The customer socket of `busyPool`. -/
def custSock : SockCtx :=
  { sid := 3, workerId := none, customerId := some "c1",
    roomId := some "room_c1_1" }

/-- The worker socket of `busyPool`. -/
def wrkSock : SockCtx :=
  { sid := 7, workerId := some 1, customerId := none, roomId := none }

/-- Two available workers: the first in store order has the higher
last-active timestamp, the second has been idle longer. -/
def twoPool : ServerState :=
  { workers := [{ wid := 1, username := "alice", status := WStatus.available,
                  currentCustomer := none, lastActive := 10 },
                { wid := 2, username := "bob", status := WStatus.available,
                  currentCustomer := none, lastActive := 5 }],
    rooms := [], messages := [], customerSessions := [],
    workerSockets := [], activeCustomers := [] }

/-- Empty broker state. -/
def st0 : ServerState :=
  { workers := [], rooms := [], messages := [], customerSessions := [],
    workerSockets := [], activeCustomers := [] }

/-- A pool whose only room is already ended (a terminal session). -/
def endedPool : ServerState :=
  { workers := [{ wid := 1, username := "alice", status := WStatus.available,
                  currentCustomer := none, lastActive := 10 }],
    rooms := [{ roomId := "room_c1_1", customerId := "c1", workerId := 1,
                workerName := "alice", status := RoomStatus.ended,
                endedAt := some 15 }],
    messages := [], customerSessions := [], workerSockets := [],
    activeCustomers := [] }

/-- A state already holding a message with id 100 (so a save at
`Date.now() = 100` hits the unique index and fails). -/
def dupPool : ServerState :=
  { workers := [], rooms := [], customerSessions := [], workerSockets := [],
    activeCustomers := [],
    messages := [{ messageId := 100, roomId := "r", message := "old",
                   sender := Sender.customer, senderId := "c",
                   status := MsgStatus.sent, timestamp := 90 }] }

/-! ## C1: the admission race -/

/-- C1: against a pool with exactly one available worker, two
`admitCustomer` requests whose `findAvailableWorker` reads both
resolve before either assignment runs (the interleaving the event
loop produces at the `await` suspension point) BOTH succeed with
status `connected`, on the same worker — selection and reservation
are two separate observable steps, so the claimed "at most one
succeeds" is violated by the code. -/
theorem C1_race_double_assignment :
    (admitRace onePool "c1" "c2" 20 21).2.1 =
      JoinResult.connected "c1" "room_c1_1" 1 "alice" ∧
    (admitRace onePool "c1" "c2" 20 21).2.2 =
      JoinResult.connected "c2" "room_c2_1" 1 "alice" ∧
    activeRoomsFor (admitRace onePool "c1" "c2" 20 21).1.rooms 1 = 2 := by
  decide

/-! ## C2: the busy-iff-one-active-session invariant -/

/-- C2: the invariant "a worker is busy iff exactly one active session
references it" is NOT preserved by every broker operation: starting
from a state satisfying it (worker 1 busy with the single active room
`room_c1_1`), a `worker-join` for worker 1 marks it available (and
clears its current customer) while the room stays active, and a
disconnect of worker 1's socket marks it offline while the room stays
active — both reachable successor states violate the invariant. -/
theorem C2_invariant_not_preserved :
    busyIffOneActive busyPool ∧
    ¬ busyIffOneActive (handleWorkerJoin busyPool 1 7 20).1 ∧
    ¬ busyIffOneActive (handleDisconnect busyPool wrkSock 20).1 := by
  decide

/-! ## C5: message identity from Date.now() -/

/-- C5: two `send-message` events in the same millisecond are both
assigned `id = Date.now()`, i.e. the same identity; the second save
then hits the unique index on `messageId` and fails, so the second
message only produces `message-error` — ids are neither unique nor
strictly increasing across successive submissions. -/
theorem C5_same_millisecond_id_collision :
    ((step st0 (Event.sendMessage 1 "r" "hi" Sender.customer "c" 100)).1.messages.map
        (fun m => m.messageId) = [100]) ∧
    (step (step st0 (Event.sendMessage 1 "r" "hi" Sender.customer "c" 100)).1
        (Event.sendMessage 2 "r" "yo" Sender.worker "w" 100)).1.messages =
      (step st0 (Event.sendMessage 1 "r" "hi" Sender.customer "c" 100)).1.messages ∧
    (step (step st0 (Event.sendMessage 1 "r" "hi" Sender.customer "c" 100)).1
        (Event.sendMessage 2 "r" "yo" Sender.worker "w" 100)).2 =
      [Emit.toSocket 2 EventPayload.messageError] := by
  decide

/-! ## Counterexample theorems for the corrected claims -/

/-- C4 counterexample: when the customer of the active session of
`busyPool` disconnects, the room's status becomes `ended`, not
`abandoned` — the handler calls `ChatRoomHelpers.end`, and the
`abandoned` enum value is never assigned anywhere in the code. -/
theorem C4_disconnect_room_not_abandoned :
    roomStatusOf busyPool.rooms "room_c1_1" = some RoomStatus.active ∧
    roomStatusOf (handleDisconnect busyPool custSock 30).1.rooms "room_c1_1" =
      some RoomStatus.ended ∧
    roomStatusOf (handleDisconnect busyPool custSock 30).1.rooms "room_c1_1" ≠
      some RoomStatus.abandoned := by
  decide

/-- C6 counterexample: in `twoPool` both workers are available and
worker 2 has the lower last-active timestamp (5 < 10), yet admission
matches worker 1 — `Worker.find({status:'available'}).limit(10)` has
no sort, so the code returns the first available worker in store
order, not the worker idle longest. -/
theorem C6_not_least_recently_active :
    (workerFind twoPool.workers 2).map (fun w => w.status) =
      some WStatus.available ∧
    (workerFind twoPool.workers 2).map (fun w => w.lastActive) = some 5 ∧
    (workerFind twoPool.workers 1).map (fun w => w.lastActive) = some 10 ∧
    (admitCustomer twoPool "c9" 20).2 =
      JoinResult.connected "c9" "room_c9_1" 1 "alice" := by
  decide

/-- C7 counterexample: a `worker-join` for the busy worker 1 of
`busyPool` (who has an assigned customer) does change its state: the
status becomes `available` and the assigned-customer reference is
cleared, contradicting the claim that registration leaves a
non-offline worker untouched. -/
theorem C7_join_resets_busy_worker :
    (workerFind busyPool.workers 1).map (fun w => w.status) =
      some WStatus.busy ∧
    (workerFind busyPool.workers 1).map (fun w => w.currentCustomer) =
      some (some "c1") ∧
    (workerFind (handleWorkerJoin busyPool 1 7 20).1.workers 1).map
        (fun w => w.status) = some WStatus.available ∧
    (workerFind (handleWorkerJoin busyPool 1 7 20).1.workers 1).map
        (fun w => w.currentCustomer) = some none := by
  decide

/-- C8 counterexample: `endedPool`'s only session is terminal
(`ended`), yet a `send-message` into it is not rejected: the message
is persisted and broadcast to the room exactly as for an active
session, and a further `end-chat` on the terminal room succeeds again
(refreshing `endedAt`) — no `InvalidSessionState` failure exists. -/
theorem C8_terminal_session_not_validated :
    roomStatusOf endedPool.rooms "room_c1_1" = some RoomStatus.ended ∧
    (step endedPool
        (Event.sendMessage 4 "room_c1_1" "hi" Sender.customer "c1" 50)).1.messages.map
      (fun m => m.messageId) = [50] ∧
    (step endedPool
        (Event.sendMessage 4 "room_c1_1" "hi" Sender.customer "c1" 50)).2 =
      [Emit.toRoom "room_c1_1" (EventPayload.newMessage
        { messageId := 50, roomId := "room_c1_1", message := "hi",
          sender := Sender.customer, senderId := "c1",
          status := MsgStatus.sent, timestamp := 50 }),
       Emit.toRoom "room_c1_1"
        (EventPayload.messageStatusUpdate 50 MsgStatus.delivered)] ∧
    (handleEndChat endedPool "room_c1_1" 1 60).1.rooms.map (fun r => r.endedAt) =
      [some 60] := by
  decide

/-- C9 counterexample: in `dupPool` the save of a message submitted at
`Date.now() = 100` fails (duplicate key).  The failure is surfaced to
the sender as `message-error`, but nothing was broadcast to the room:
the save precedes the fan-out, so on a persistence failure the
recipient never sees the message — there is no already-broadcast
state left standing, contradicting the claim that the message remains
visible to the recipient. -/
theorem C9_failed_save_nothing_broadcast :
    (step dupPool (Event.sendMessage 5 "r" "hi" Sender.customer "c" 100)).2 =
      [Emit.toSocket 5 EventPayload.messageError] ∧
    (step dupPool (Event.sendMessage 5 "r" "hi" Sender.customer "c" 100)).1 =
      dupPool := by
  decide

/-! ## C10: failed admission is atomic -/

/-- C10: whenever no available worker exists, the join route answers
`{status:'busy'}` carrying the freshly generated customer id (the id
is generated before the lookup and passed in here) and performs no
state mutation at all: the returned state is exactly the input state. -/
theorem C10_busy_response_no_mutation (st : ServerState) (cid : String)
    (now : Nat) (h : findAvailableWorker st.workers = none) :
    admitCustomer st cid now = (st, JoinResult.busy cid) := by
  simp [admitCustomer, admitAfterFind, h]

/-- C10 witness: in `busyPool` (single busy worker) no worker is
available, and admission leaves the state untouched and answers
`busy`. -/
theorem C10_witness :
    admitCustomer busyPool "c77" 40 = (busyPool, JoinResult.busy "c77") :=
  C10_busy_response_no_mutation busyPool "c77" 40 (by decide)

/-! ## Lemmas about updateFirst, find? and the map helpers -/

/-- `find?` after `updateFirst` with the same predicate, when the
update preserves the predicate: the found element is the updated one. -/
theorem find?_updateFirst_self (p : α → Bool) (f : α → α) (l : List α)
    (hf : ∀ a, p a = true → p (f a) = true) :
    (updateFirst p f l).find? p = (l.find? p).map f := by
  induction l with
  | nil => simp [updateFirst]
  | cons x xs ih =>
    by_cases h : p x
    · simp [updateFirst, h, hf x h]
    · simp [updateFirst, h, ih]

/-- `find?` for a predicate `q` is unchanged by `updateFirst p f` when
no `p`-element can match `q` and `f` preserves `q`. -/
theorem find?_updateFirst_other (p q : α → Bool) (f : α → α) (l : List α)
    (hpq : ∀ a, p a = true → q a = false) (hq : ∀ a, q (f a) = q a) :
    (updateFirst p f l).find? q = l.find? q := by
  induction l with
  | nil => simp [updateFirst]
  | cons x xs ih =>
    by_cases h : p x
    · simp [updateFirst, h, List.find?_cons, hq x, hpq x h]
    · by_cases h2 : q x
      · simp [updateFirst, h, h2]
      · simp [updateFirst, h, h2, ih]

/-- A set key is found, bound to the new value. -/
theorem mapGet_mapSet_self [DecidableEq κ] (m : List (κ × α)) (k : κ) (v : α) :
    mapGet (mapSet m k v) k = some v := by
  unfold mapSet
  by_cases h : m.any (fun e => decide (e.1 = k))
  · simp only [h, if_true]
    unfold mapGet
    rw [find?_updateFirst_self]
    · cases ha : m.find? (fun e => decide (e.1 = k)) with
      | none =>
        rw [List.find?_eq_none] at ha
        rw [List.any_eq_true] at h
        obtain ⟨e, he, hpe⟩ := h
        exact absurd hpe (by simpa using ha e he)
      | some e => rfl
    · intro a ha; exact ha
  · simp only [h, if_false]
    unfold mapGet
    have hn : m.find? (fun e => decide (e.1 = k)) = none := by
      rw [List.find?_eq_none]
      intro e he
      by_contra hcon
      exact h (List.any_eq_true.mpr ⟨e, he, by simpa using hcon⟩)
    simp [List.find?_append, hn]

/-- A deleted key is gone. -/
theorem mapGet_mapDelete_self [DecidableEq κ] (m : List (κ × α)) (k : κ) :
    mapGet (mapDelete m k) k = none := by
  unfold mapGet mapDelete
  have hn : (m.filter (fun e => decide (e.1 ≠ k))).find?
      (fun e => decide (e.1 = k)) = none := by
    rw [List.find?_eq_none]
    intro e he
    have hne := (List.mem_filter.mp he).2
    simp only [decide_eq_true_eq] at hne
    simp [hne]
  rw [hn]
  rfl

/-- `workerFind` after `WorkerHelpers.updateStatus` on the same id. -/
theorem workerFind_updateStatus_self (db : List Worker) (wid : Nat)
    (s : WStatus) (cc : Option String) (now : Nat) :
    workerFind (WorkerHelpers.updateStatus db wid s cc now) wid =
      (workerFind db wid).map
        (fun w => { w with status := s, currentCustomer := cc, lastActive := now }) := by
  unfold workerFind WorkerHelpers.updateStatus
  rw [find?_updateFirst_self]
  intro a ha; exact ha

/-- `roomStatusOf` after `ChatRoomHelpers.endRoom` on the same id. -/
theorem roomStatusOf_endRoom_self (db : List ChatRoom) (rid : String)
    (now : Nat) :
    roomStatusOf (ChatRoomHelpers.endRoom db rid now) rid =
      (roomStatusOf db rid).map (fun _ => RoomStatus.ended) := by
  unfold roomStatusOf ChatRoomHelpers.endRoom
  rw [find?_updateFirst_self]
  · cases hf : db.find? (fun r => decide (r.roomId = rid)) <;> simp [hf]
  · intro a ha; exact ha

/-- `statusOf` after `MessageHelpers.updateStatus` on the same id. -/
theorem statusOf_updateStatus_self (db : List MessageRec) (mid : Nat)
    (s : MsgStatus) :
    statusOf (MessageHelpers.updateStatus db mid s) mid =
      (statusOf db mid).map (fun _ => s) := by
  unfold statusOf MessageHelpers.updateStatus
  rw [find?_updateFirst_self]
  · cases hf : db.find? (fun m => decide (m.messageId = mid)) <;> simp [hf]
  · intro a ha; exact ha

/-- `statusOf` after `MessageHelpers.updateStatus` on a different id. -/
theorem statusOf_updateStatus_other (db : List MessageRec) (mid mid' : Nat)
    (s : MsgStatus) (h : mid ≠ mid') :
    statusOf (MessageHelpers.updateStatus db mid' s) mid = statusOf db mid := by
  unfold statusOf MessageHelpers.updateStatus
  rw [find?_updateFirst_other]
  · intro a ha
    simp only [decide_eq_true_eq] at ha
    simp only [decide_eq_false_iff_not]
    rw [ha]
    exact fun hh => h hh.symm
  · intro a; rfl

/-! ## C6, C7, C8, C9 amended theorems and witnesses -/

/-- C6 (amended): `admitCustomer` matches the FIRST worker with status
`available` in store order — `Worker.find({status:'available'}).limit(10)`
carries no sort clause, so the last-active timestamp plays no role in
the selection. -/
theorem C6_first_available_matched (st : ServerState) (c : String) (now : Nat)
    (w : Worker)
    (h : st.workers.find? (fun x => decide (x.status = WStatus.available)) =
      some w) :
    (admitCustomer st c now).2 =
      JoinResult.connected c ("room_" ++ c ++ "_" ++ toString w.wid) w.wid
        w.username := by
  have hf : findAvailableWorker st.workers = some w := by
    unfold findAvailableWorker WorkerHelpers.findAvailable
    rw [List.head?_take]
    simp [h]
  unfold admitCustomer
  rw [hf]
  rfl

/-- C6 witness: in `twoPool` the first available worker in store order
is worker 1, and admission matches it. -/
theorem C6_first_available_witness :
    (admitCustomer twoPool "c8" 21).2 =
      JoinResult.connected "c8" ("room_" ++ "c8" ++ "_" ++ toString (1 : Nat))
        1 "alice" :=
  C6_first_available_matched twoPool "c8" 21
    { wid := 1, username := "alice", status := WStatus.available,
      currentCustomer := none, lastActive := 10 } (by decide)

/-- C7 (amended): `worker-join` binds the transport
(`workerSockets.set`) and sets the worker `available` with a cleared
assigned-customer reference UNCONDITIONALLY — whatever the prior
availability (`offline`, `available` or `busy`) and prior assignment. -/
theorem C7_worker_join_unconditional (st : ServerState) (wid sid now : Nat)
    (w : Worker) (h : workerFind st.workers wid = some w) :
    workerFind (handleWorkerJoin st wid sid now).1.workers wid =
      some { w with status := WStatus.available, currentCustomer := none,
                    lastActive := now } ∧
    mapGet (handleWorkerJoin st wid sid now).1.workerSockets wid = some sid := by
  constructor
  · show workerFind
      (WorkerHelpers.updateStatus st.workers wid WStatus.available none now) wid = _
    rw [workerFind_updateStatus_self, h]
    rfl
  · exact mapGet_mapSet_self st.workerSockets wid sid

/-- C7 witness: joining the busy worker 1 of `busyPool` leaves it
available with no assigned customer and the socket bound. -/
theorem C7_worker_join_witness :
    workerFind (handleWorkerJoin busyPool 1 7 20).1.workers 1 =
      some { wid := 1, username := "alice", status := WStatus.available,
             currentCustomer := none, lastActive := 20 } ∧
    mapGet (handleWorkerJoin busyPool 1 7 20).1.workerSockets 1 = some 7 :=
  C7_worker_join_unconditional busyPool 1 7 20
    { wid := 1, username := "alice", status := WStatus.busy,
      currentCustomer := some "c1", lastActive := 10 } (by decide)

/-- C9 (amended): when the durable save of a submitted message fails,
the failure is surfaced to the sending client as `message-error` and
nothing else happens: the state is untouched and nothing is broadcast
to the room — persistence precedes fan-out, so the recipient never
sees the message and there is no already-broadcast state to keep. -/
theorem C9_failed_persist_surfaced_only (st : ServerState) (sid : Nat)
    (rid msg : String) (sender : Sender) (senderId : String) (now : Nat)
    (hdup : st.messages.any (fun m => decide (m.messageId = now)) = true) :
    step st (Event.sendMessage sid rid msg sender senderId now) =
      (st, [Emit.toSocket sid EventPayload.messageError]) := by
  unfold step handleSendMessage MessageHelpers.saveMessage
  simp [hdup]

/-- C9 witness: in `dupPool` a submission at `Date.now() = 100`
collides with the stored message id and only `message-error` goes
back. -/
theorem C9_failed_persist_witness :
    step dupPool (Event.sendMessage 9 "r" "again" Sender.worker "w" 100) =
      (dupPool, [Emit.toSocket 9 EventPayload.messageError]) :=
  C9_failed_persist_surfaced_only dupPool 9 "r" "again" Sender.worker "w" 100
    (by decide)

/-- The `messageData` record built by the `send-message` handler
(`id: Date.now()`, `status: 'sent'`, `timestamp` the same tick). -/
def builtMessage (rid msg : String) (sender : Sender) (senderId : String)
    (now : Nat) : MessageRec :=
  { messageId := now, roomId := rid, message := msg, sender := sender,
    senderId := senderId, status := MsgStatus.sent, timestamp := now }

/-- C8 (amended): operations on a terminal session are not validated
and do not fail: a `send-message` into an `ended` room with a fresh id
persists the message and fans it out exactly as for an active room
(followed by the delayed `delivered` update), and `end-chat` applies
`ended`/`endedAt` again from the terminal state. -/
theorem C8_no_terminal_validation (st : ServerState) (sid : Nat)
    (rid msg : String) (sender : Sender) (senderId : String)
    (now wid tnow : Nat)
    (hterm : roomStatusOf st.rooms rid = some RoomStatus.ended)
    (hfresh : st.messages.any (fun m => decide (m.messageId = now)) = false) :
    (step st (Event.sendMessage sid rid msg sender senderId now)).1.messages =
      st.messages ++ [builtMessage rid msg sender senderId now] ∧
    (step st (Event.sendMessage sid rid msg sender senderId now)).2 =
      [Emit.toRoom rid
        (EventPayload.newMessage (builtMessage rid msg sender senderId now)),
       Emit.toRoom rid
        (EventPayload.messageStatusUpdate now MsgStatus.delivered)] ∧
    roomStatusOf (handleEndChat st rid wid tnow).1.rooms rid =
      some RoomStatus.ended := by
  refine ⟨?_, ?_, ?_⟩
  · unfold step handleSendMessage MessageHelpers.saveMessage builtMessage
    simp [hfresh]
  · unfold step handleSendMessage MessageHelpers.saveMessage builtMessage
    simp [hfresh]
  · show roomStatusOf (ChatRoomHelpers.endRoom st.rooms rid tnow) rid = _
    rw [roomStatusOf_endRoom_self, hterm]
    rfl

/-- C8 witness: sending into the ended room of `endedPool` persists
and broadcasts, and re-ending it succeeds. -/
theorem C8_no_terminal_validation_witness :
    (step endedPool
        (Event.sendMessage 4 "room_c1_1" "late" Sender.customer "c1" 70)).1.messages =
      endedPool.messages ++ [builtMessage "room_c1_1" "late" Sender.customer "c1" 70] ∧
    (step endedPool
        (Event.sendMessage 4 "room_c1_1" "late" Sender.customer "c1" 70)).2 =
      [Emit.toRoom "room_c1_1"
        (EventPayload.newMessage (builtMessage "room_c1_1" "late" Sender.customer "c1" 70)),
       Emit.toRoom "room_c1_1"
        (EventPayload.messageStatusUpdate 70 MsgStatus.delivered)] ∧
    roomStatusOf (handleEndChat endedPool "room_c1_1" 1 80).1.rooms "room_c1_1" =
      some RoomStatus.ended :=
  C8_no_terminal_validation endedPool 4 "room_c1_1" "late" Sender.customer "c1"
    70 1 80 (by decide) (by decide)

/-! ## C4 amended theorem and witness -/

/-- C4 (amended): when a customer transport drops while its session is
still active, the worker is notified with `customer-disconnected`, the
worker's availability becomes `available`, the session's status
becomes `ended` (the handler calls `ChatRoomHelpers.end`; the schema's
`abandoned` value is never assigned), and the ephemeral
customer-presence record is removed. -/
theorem C4_customer_disconnect_effects (st : ServerState) (sid : Nat)
    (cid rid : String) (c : CustomerData) (now : Nat)
    (hget : mapGet st.activeCustomers cid = some c)
    (hworker : ∃ w, workerFind st.workers c.workerId = some w)
    (hroom : roomStatusOf st.rooms rid = some RoomStatus.active) :
    (handleDisconnect st ⟨sid, none, some cid, some rid⟩ now).2 =
      [Emit.toWorkerRoom c.workerId (EventPayload.customerDisconnected cid)] ∧
    (workerFind
        (handleDisconnect st ⟨sid, none, some cid, some rid⟩ now).1.workers
        c.workerId).map (fun w => w.status) = some WStatus.available ∧
    roomStatusOf
        (handleDisconnect st ⟨sid, none, some cid, some rid⟩ now).1.rooms rid =
      some RoomStatus.ended ∧
    mapGet
        (handleDisconnect st ⟨sid, none, some cid, some rid⟩ now).1.activeCustomers
        cid = none := by
  obtain ⟨w, hw⟩ := hworker
  unfold handleDisconnect
  simp only [hget]
  refine ⟨rfl, ?_, ?_, ?_⟩
  · rw [workerFind_updateStatus_self, hw]
    rfl
  · rw [roomStatusOf_endRoom_self, hroom]
    rfl
  · exact mapGet_mapDelete_self st.activeCustomers cid

/-- C4 witness: the customer of `busyPool` dropping its transport
notifies worker 1, frees it, ends the room and drops the presence
record. -/
theorem C4_customer_disconnect_witness :
    (handleDisconnect busyPool ⟨3, none, some "c1", some "room_c1_1"⟩ 30).2 =
      [Emit.toWorkerRoom 1 (EventPayload.customerDisconnected "c1")] ∧
    (workerFind
        (handleDisconnect busyPool ⟨3, none, some "c1", some "room_c1_1"⟩ 30).1.workers
        1).map (fun w => w.status) = some WStatus.available ∧
    roomStatusOf
        (handleDisconnect busyPool ⟨3, none, some "c1", some "room_c1_1"⟩ 30).1.rooms
        "room_c1_1" = some RoomStatus.ended ∧
    mapGet
        (handleDisconnect busyPool ⟨3, none, some "c1", some "room_c1_1"⟩ 30).1.activeCustomers
        "c1" = none :=
  C4_customer_disconnect_effects busyPool 3 "c1" "room_c1_1"
    { id := "c1", roomId := "room_c1_1", workerId := 1, workerName := "alice",
      joinedAt := 5 } 30 (by decide)
    ⟨{ wid := 1, username := "alice", status := WStatus.busy,
       currentCustomer := some "c1", lastActive := 10 }, by decide⟩
    (by decide)

/-! ## C3: monotone delivery status -/

/-- `read` is the top of the sent → delivered → read order. -/
theorem statusRank_le_read (s : MsgStatus) :
    statusRank s ≤ statusRank MsgStatus.read := by
  cases s <;> simp [statusRank]

/-- `updateFirst` is the identity when the update fixes the element it
would touch. -/
theorem updateFirst_noop (p : α → Bool) (f : α → α) (l : List α)
    (h : ∀ a, l.find? p = some a → f a = a) :
    updateFirst p f l = l := by
  induction l with
  | nil => rfl
  | cons x xs ih =>
    unfold updateFirst
    by_cases hx : p x
    · rw [if_pos hx, h x (List.find?_cons_of_pos xs hx)]
    · rw [if_neg hx]
      rw [ih (fun a ha => h a (by rw [List.find?_cons_of_neg xs hx]; exact ha))]

/-- Re-marking an already-read message as read leaves the store
unchanged. -/
theorem updateStatus_read_noop (db : List MessageRec) (mid : Nat)
    (h : statusOf db mid = some MsgStatus.read) :
    MessageHelpers.updateStatus db mid MsgStatus.read = db := by
  unfold MessageHelpers.updateStatus
  apply updateFirst_noop
  intro a ha
  have hs : a.status = MsgStatus.read := by
    unfold statusOf at h
    rw [ha] at h
    simpa using h
  cases a
  simp_all

/-- A stored status survives appending a new message. -/
theorem statusOf_append (db : List MessageRec) (m : MessageRec) (mid : Nat)
    (s : MsgStatus) (h : statusOf db mid = some s) :
    statusOf (db ++ [m]) mid = some s := by
  unfold statusOf at h ⊢
  rw [List.find?_append]
  cases hf : db.find? (fun x => decide (x.messageId = mid)) with
  | none => rw [hf] at h; exact absurd h (by simp)
  | some x => rw [hf] at h; simpa using h

/-- After the bulk `updateMany`, a message's status is either what it
was or `read`. -/
theorem statusOf_updateManyRead (db : List MessageRec) (ids : List Nat)
    (mid : Nat) :
    statusOf (MessageRec.updateManyRead db ids) mid = statusOf db mid ∨
    statusOf (MessageRec.updateManyRead db ids) mid =
      (statusOf db mid).map (fun _ => MsgStatus.read) := by
  unfold statusOf MessageRec.updateManyRead
  rw [List.find?_map]
  have hpred : ((fun m => decide (m.messageId = mid)) ∘
      (fun m => if ids.contains m.messageId
        then { m with status := MsgStatus.read } else m)) =
      (fun m : MessageRec => decide (m.messageId = mid)) := by
    funext a
    by_cases hc : a.messageId ∈ ids <;> simp [Function.comp, hc]
  rw [hpred]
  cases hf : db.find? (fun m => decide (m.messageId = mid)) with
  | none => left; rfl
  | some x =>
    by_cases hc : x.messageId ∈ ids
    · right; simp [hc]
    · left; simp [hc]

/-- Admission never touches the message store. -/
theorem messages_step_admitReq (st : ServerState) (cid : String) (now : Nat) :
    (step st (Event.admitReq cid now)).1.messages = st.messages := by
  unfold step admitCustomer admitAfterFind
  cases findAvailableWorker st.workers <;> rfl

/-- `worker-join` never touches the message store. -/
theorem messages_step_workerJoin (st : ServerState) (wid sid now : Nat) :
    (step st (Event.workerJoin wid sid now)).1.messages = st.messages := rfl

/-- `customer-join` never touches the message store. -/
theorem messages_step_customerJoin (st : ServerState) (cid rid : String) :
    (step st (Event.customerJoin cid rid)).1.messages = st.messages := by
  show (handleCustomerJoin st cid rid).1.messages = st.messages
  unfold handleCustomerJoin
  cases mapGet st.activeCustomers cid <;> rfl

/-- `send-message` leaves the store unchanged (failed save) or appends
the newly built message. -/
theorem messages_step_send (st : ServerState) (sid : Nat) (rid msg : String)
    (sender : Sender) (senderId : String) (now : Nat) :
    (step st (Event.sendMessage sid rid msg sender senderId now)).1.messages =
      st.messages ∨
    (step st (Event.sendMessage sid rid msg sender senderId now)).1.messages =
      st.messages ++ [builtMessage rid msg sender senderId now] := by
  unfold step handleSendMessage MessageHelpers.saveMessage builtMessage
  by_cases h : st.messages.any (fun x => decide (x.messageId = now)) <;> simp [h]

/-- `message-read` leaves the store unchanged (guard) or runs the
single-message status update. -/
theorem messages_step_msgRead (st : ServerState) (rid : String) (mid : Nat) :
    (step st (Event.messageRead rid mid)).1.messages = st.messages ∨
    (step st (Event.messageRead rid mid)).1.messages =
      MessageHelpers.updateStatus st.messages mid MsgStatus.read := by
  show (handleMessageRead st rid mid).1.messages = st.messages ∨
    (handleMessageRead st rid mid).1.messages =
      MessageHelpers.updateStatus st.messages mid MsgStatus.read
  unfold handleMessageRead
  split
  · exact Or.inl rfl
  · exact Or.inr rfl

/-- `messages-read` runs the bulk update. -/
theorem messages_step_msgsRead (st : ServerState) (rid : String)
    (ids : List Nat) :
    (step st (Event.messagesRead rid ids)).1.messages =
      MessageRec.updateManyRead st.messages ids := rfl

/-- `end-chat` never touches the message store. -/
theorem messages_step_endChat (st : ServerState) (rid : String)
    (wid now : Nat) :
    (step st (Event.endChat rid wid now)).1.messages = st.messages := rfl

/-- The typing relay never touches the message store. -/
theorem messages_step_typing (st : ServerState) (rid s : String) (f : Bool) :
    (step st (Event.typing rid s f)).1.messages = st.messages := by
  show (handleTyping st rid s f).1.messages = st.messages
  unfold handleTyping
  split <;> rfl

/-- Disconnect handling never touches the message store. -/
theorem messages_step_disconnect (st : ServerState) (sock : SockCtx)
    (now : Nat) :
    (step st (Event.disconnect sock now)).1.messages = st.messages := by
  show (handleDisconnect st sock now).1.messages = st.messages
  rcases sock with ⟨sid, wq, cq, rq⟩
  rcases wq with _ | wid <;> rcases cq with _ | cid <;> rcases rq with _ | rid
  · rfl
  · rfl
  · rfl
  · simp only [handleDisconnect]
    cases hx : mapGet st.activeCustomers cid <;> simp [hx]
  · rfl
  · rfl
  · rfl
  · simp only [handleDisconnect]
    cases hx : mapGet st.activeCustomers cid <;> simp [hx]

/-- C3: for every message, the persisted delivery status only moves
forward along the order sent → delivered → read under every broker
operation, never regressing; and a `message-read` for a message whose
current status is already `read` is a no-op on the server state. -/
theorem C3_status_monotone_and_markread_idempotent :
    (∀ (st : ServerState) (e : Event) (mid : Nat) (s s' : MsgStatus),
        statusOf st.messages mid = some s →
        statusOf (step st e).1.messages mid = some s' →
        statusRank s ≤ statusRank s') ∧
    (∀ (st : ServerState) (rid : String) (mid : Nat),
        statusOf st.messages mid = some MsgStatus.read →
        (step st (Event.messageRead rid mid)).1 = st) := by
  constructor
  · intro st e mid s s' h1 h2
    have same : statusOf (step st e).1.messages mid = statusOf st.messages mid →
        statusRank s ≤ statusRank s' := by
      intro hm
      rw [hm, h1] at h2
      cases h2
      exact Nat.le_refl _
    cases e with
    | admitReq cid now => exact same (by rw [messages_step_admitReq])
    | workerJoin wid sid now => exact same (by rw [messages_step_workerJoin])
    | customerJoin cid rid => exact same (by rw [messages_step_customerJoin])
    | endChat rid wid now => exact same (by rw [messages_step_endChat])
    | typing rid snd f => exact same (by rw [messages_step_typing])
    | disconnect sock now => exact same (by rw [messages_step_disconnect])
    | sendMessage sid rid msg sender senderId now =>
      rcases messages_step_send st sid rid msg sender senderId now with hm | hm
      · exact same (by rw [hm])
      · rw [hm, statusOf_append st.messages _ mid s h1] at h2
        cases h2
        exact Nat.le_refl _
    | messageRead rid emid =>
      rcases messages_step_msgRead st rid emid with hm | hm
      · exact same (by rw [hm])
      · rw [hm] at h2
        by_cases he : mid = emid
        · subst he
          rw [statusOf_updateStatus_self, h1] at h2
          cases h2
          exact statusRank_le_read s
        · rw [statusOf_updateStatus_other st.messages mid emid MsgStatus.read he,
            h1] at h2
          cases h2
          exact Nat.le_refl _
    | messagesRead rid ids =>
      rw [messages_step_msgsRead] at h2
      rcases statusOf_updateManyRead st.messages ids mid with hm | hm
      · rw [hm, h1] at h2
        cases h2
        exact Nat.le_refl _
      · rw [hm, h1] at h2
        cases h2
        exact statusRank_le_read s
  · intro st rid mid h
    show (handleMessageRead st rid mid).1 = st
    unfold handleMessageRead
    split
    · rfl
    · rw [updateStatus_read_noop st.messages mid h]

/-- A state holding one message that is already `read`. -/
def readPool : ServerState :=
  { workers := [], rooms := [], customerSessions := [], workerSockets := [],
    activeCustomers := [],
    messages := [{ messageId := 100, roomId := "r", message := "old",
                   sender := Sender.customer, senderId := "c",
                   status := MsgStatus.read, timestamp := 90 }] }

/-- C3 witness: reading the sent message of `dupPool` advances its
rank (sent ≤ read), and re-reading the already-read message of
`readPool` leaves the state untouched. -/
theorem C3_status_monotone_witness :
    statusRank MsgStatus.sent ≤ statusRank MsgStatus.read ∧
    (step readPool (Event.messageRead "r" 100)).1 = readPool :=
  ⟨C3_status_monotone_and_markread_idempotent.1 dupPool
      (Event.messageRead "r" 100) 100 MsgStatus.sent MsgStatus.read
      (by decide) (by decide),
   C3_status_monotone_and_markread_idempotent.2 readPool "r" 100 (by decide)⟩
